import Mathlib

/-!
Shallow embedding of the lottery core of the `contrast-adjuster` repository
(`lottery.go`, `model.go`).  Go `int` values are modelled as `Int`: every
amount manipulated by this program is bounded by the static paytable
(at most 10^8 cents) times a small multiplier, far below 2^63, so Go
machine arithmetic is exact on all program-reachable values.  Go functions
returning `(T, error)` are modelled as `Except String T`; `nil` pointers as
`Option`.  The HTTP transport inside the fetchers is not code of this core
(the spec excludes it); the outcome of each upstream call is therefore an
explicit input of the embedded fetcher, and everything after the call site
is translated from the source.
-/

/-- `WinningNumbers` struct from `model.go`. -/
structure WinningNumbers where
  playDate : String
  n1 : Int
  n2 : Int
  n3 : Int
  n4 : Int
  n5 : Int
  mball : Int
  megaplier : Int
  updatedBy : String
  updatedTime : String
deriving Repr, DecidableEq

/-- `TicketResult` struct from `lottery.go`. -/
structure TicketResult where
  isWinner : Bool
  whiteBallMatches : Int
  hasPowerball : Bool
  prizeDescription : String
  basePrize : Int
  powerPlayMultiplier : Int
  powerPlayPrize : String
  powerPlayAmount : Int
  totalPrize : Int
deriving Repr, DecidableEq

/-- `boolToInt` from `lottery.go`: true = 1, false = 0. -/
def boolToInt (b : Bool) : Int :=
  if b then 1 else 0

/-- The static Powerball prize-tier map literal inside `calculatePowerballPrize`
(`lottery.go`).  Keys are the `"w+b"` strings; values are
(description, base amount in cents). -/
def powerballPrizeTiers (estimatedJackpot : String) : List (String × String × Int) :=
  [("5+1", estimatedJackpot, 0),
   ("5+0", "$1,000,000", 100000000),
   ("4+1", "$50,000", 5000000),
   ("4+0", "$100", 10000),
   ("3+1", "$100", 10000),
   ("3+0", "$7", 700),
   ("2+1", "$7", 700),
   ("2+0", "$0", 0),
   ("1+1", "$4", 400),
   ("1+0", "$0", 0),
   ("0+1", "$4", 400),
   ("0+0", "$0", 0)]

/-- `calculatePowerballPrize` from `lottery.go`: key lookup on the static map,
with the `("No Prize", 0)` default for keys outside the map. -/
def calculatePowerballPrize (whiteBallMatches : Int) (hasPowerball : Bool)
    (estimatedJackpot : String) : String × Int :=
  let key := toString whiteBallMatches ++ "+" ++ toString (boolToInt hasPowerball)
  match (powerballPrizeTiers estimatedJackpot).find? (fun t => t.1 == key) with
  | some t => (t.2.1, t.2.2)
  | none => ("No Prize", 0)

/-- `calculatePowerPlayPrize` from `lottery.go`: the requested multiplier 10 is
silently replaced by 2 when the base amount exceeds 15,000,000 cents, then the
amount is a straight product, and the dollar string is bucketed by magnitude. -/
def calculatePowerPlayPrize (baseAmount : Int) (multiplier : Int) : String × Int :=
  let multiplier := if multiplier = 10 ∧ baseAmount > 15000000 then 2 else multiplier
  let powerPlayAmount := baseAmount * multiplier
  let formattedPrize :=
    if powerPlayAmount ≥ 100000000 then "$" ++ toString (powerPlayAmount / 100000000) ++ " Million"
    else if powerPlayAmount ≥ 1000000 then "$" ++ toString (powerPlayAmount / 100)
    else if powerPlayAmount ≥ 100000 then "$" ++ toString (powerPlayAmount / 100)
    else if powerPlayAmount ≥ 10000 then "$" ++ toString (powerPlayAmount / 100)
    else if powerPlayAmount ≥ 100 then "$" ++ toString (powerPlayAmount / 100)
    else "$0"
  (formattedPrize, powerPlayAmount)

/-- The static Mega Millions prize-tier map literal inside
`calculateMegaMillionsPrize` (`lottery.go`). -/
def megaMillionsPrizeTiers (estimatedJackpot : String) : List (String × String × Int) :=
  [("5+1", estimatedJackpot, 0),
   ("5+0", "$1,000,000", 100000000),
   ("4+1", "$10,000", 1000000),
   ("4+0", "$500", 50000),
   ("3+1", "$200", 20000),
   ("3+0", "$10", 1000),
   ("2+1", "$10", 1000),
   ("2+0", "$0", 0),
   ("1+1", "$4", 400),
   ("1+0", "$0", 0),
   ("0+1", "$2", 200),
   ("0+0", "$0", 0)]

/-- `calculateMegaMillionsPrize` from `lottery.go`. -/
def calculateMegaMillionsPrize (whiteBallMatches : Int) (hasMegaBall : Bool)
    (estimatedJackpot : String) : String × Int :=
  let key := toString whiteBallMatches ++ "+" ++ toString (boolToInt hasMegaBall)
  match (megaMillionsPrizeTiers estimatedJackpot).find? (fun t => t.1 == key) with
  | some t => (t.2.1, t.2.2)
  | none => ("No Prize", 0)

/-- `calculateMegaplierPrize` from `lottery.go`: unconditionally a straight
product, no cap of any kind. -/
def calculateMegaplierPrize (baseAmount : Int) (multiplier : Int) : String × Int :=
  let megaplierAmount := baseAmount * multiplier
  let formattedPrize :=
    if megaplierAmount ≥ 100000000 then "$" ++ toString (megaplierAmount / 100000000) ++ " Million"
    else if megaplierAmount ≥ 1000000 then "$" ++ toString (megaplierAmount / 100)
    else if megaplierAmount ≥ 100000 then "$" ++ toString (megaplierAmount / 100)
    else if megaplierAmount ≥ 10000 then "$" ++ toString (megaplierAmount / 100)
    else if megaplierAmount ≥ 100 then "$" ++ toString (megaplierAmount / 100)
    else "$0"
  (formattedPrize, megaplierAmount)

/-- `countMatchingNumbers` from `lottery.go`.  The Go code builds a set
(`map[int]bool`) of the ticket numbers and counts the winning numbers found in
that set; membership of a winning number in the set is exactly membership in
the ticket list, so the count is the length of the sublist of winning numbers
that occur among the ticket numbers. -/
def countMatchingNumbers (ticketNumbers : List Int) (winningNumbers : List Int) : Int :=
  ((winningNumbers.filter (fun winningNum => ticketNumbers.contains winningNum)).length : Int)

/-- `checkPowerballTicket` from `lottery.go`. -/
def checkPowerballTicket (ticketNumbers : List Int) (powerballNumber : Int)
    (winningNumbers : Option WinningNumbers) (powerPlayMultiplier : Int)
    (estimatedJackpot : String) : Except String TicketResult :=
  if ticketNumbers.length ≠ 5 then
    .error "invalid ticket: must have exactly 5 white ball numbers"
  else if powerballNumber < 1 ∨ powerballNumber > 26 then
    .error "invalid Powerball number: must be between 1 and 26"
  else
    match winningNumbers with
    | none => .error "winning numbers cannot be nil"
    | some wn =>
      let winningWhiteBalls := [wn.n1, wn.n2, wn.n3, wn.n4, wn.n5]
      let winningPowerball := wn.mball
      let whiteBallMatches := countMatchingNumbers ticketNumbers winningWhiteBalls
      let hasPowerball := powerballNumber == winningPowerball
      let prize := calculatePowerballPrize whiteBallMatches hasPowerball estimatedJackpot
      let prizeDescription := prize.1
      let baseAmount := prize.2
      let pp := if powerPlayMultiplier > 0 then
          calculatePowerPlayPrize baseAmount powerPlayMultiplier
        else ("", 0)
      let powerPlayPrize := pp.1
      let powerPlayAmount := pp.2
      .ok {
        isWinner := decide (baseAmount > 0) || (whiteBallMatches == 5 && hasPowerball)
        whiteBallMatches := whiteBallMatches
        hasPowerball := hasPowerball
        prizeDescription := prizeDescription
        basePrize := baseAmount
        powerPlayMultiplier := powerPlayMultiplier
        powerPlayPrize := powerPlayPrize
        powerPlayAmount := powerPlayAmount
        totalPrize := if powerPlayMultiplier > 0 then powerPlayAmount else baseAmount
      }

/-- `checkMegaMillionsTicket` from `lottery.go`.  Note: the estimated jackpot
is the hardcoded default string inside the function body, not a parameter. -/
def checkMegaMillionsTicket (ticketNumbers : List Int) (megaBallNumber : Int)
    (winningNumbers : Option WinningNumbers) (megaplierMultiplier : Int) :
    Except String TicketResult :=
  if ticketNumbers.length ≠ 5 then
    .error "invalid ticket: must have exactly 5 white ball numbers"
  else if megaBallNumber < 1 ∨ megaBallNumber > 25 then
    .error "invalid Mega Ball number: must be between 1 and 25"
  else
    match winningNumbers with
    | none => .error "winning numbers cannot be nil"
    | some wn =>
      let winningWhiteBalls := [wn.n1, wn.n2, wn.n3, wn.n4, wn.n5]
      let winningMegaBall := wn.mball
      let whiteBallMatches := countMatchingNumbers ticketNumbers winningWhiteBalls
      let hasMegaBall := megaBallNumber == winningMegaBall
      let estimatedJackpot := "$500 Million"
      let prize := calculateMegaMillionsPrize whiteBallMatches hasMegaBall estimatedJackpot
      let prizeDescription := prize.1
      let baseAmount := prize.2
      let mp := if megaplierMultiplier > 0 then
          calculateMegaplierPrize baseAmount megaplierMultiplier
        else ("", 0)
      let megaplierPrize := mp.1
      let megaplierAmount := mp.2
      .ok {
        isWinner := decide (baseAmount > 0) || (whiteBallMatches == 5 && hasMegaBall)
        whiteBallMatches := whiteBallMatches
        hasPowerball := hasMegaBall
        prizeDescription := prizeDescription
        basePrize := baseAmount
        powerPlayMultiplier := megaplierMultiplier
        powerPlayPrize := megaplierPrize
        powerPlayAmount := megaplierAmount
        totalPrize := if megaplierMultiplier > 0 then megaplierAmount else baseAmount
      }

/-- Inversion of the success branch of `checkPowerballTicket`: the fields of a
returned result, exactly as the source computes them. -/
theorem checkPowerballTicket_ok_inv (t : List Int) (pb : Int) (wn : WinningNumbers)
    (m : Int) (j : String) (r : TicketResult)
    (h : checkPowerballTicket t pb (some wn) m j = .ok r) :
    r.whiteBallMatches = countMatchingNumbers t [wn.n1, wn.n2, wn.n3, wn.n4, wn.n5]
    ∧ r.hasPowerball = (pb == wn.mball)
    ∧ r.prizeDescription = (calculatePowerballPrize r.whiteBallMatches r.hasPowerball j).1
    ∧ r.basePrize = (calculatePowerballPrize r.whiteBallMatches r.hasPowerball j).2
    ∧ r.powerPlayMultiplier = m
    ∧ r.isWinner = (decide (r.basePrize > 0) || (r.whiteBallMatches == 5 && r.hasPowerball))
    ∧ r.totalPrize = (if m > 0 then (calculatePowerPlayPrize r.basePrize m).2 else r.basePrize) := by
  unfold checkPowerballTicket at h
  split at h
  · exact Except.noConfusion h
  · split at h
    · exact Except.noConfusion h
    · injection h with h
      subst h
      refine ⟨rfl, rfl, rfl, rfl, rfl, rfl, ?_⟩
      by_cases hm : m > 0 <;> simp [hm]

/-- Inversion of the success branch of `checkMegaMillionsTicket`; the jackpot
display string is the hardcoded default of the source. -/
theorem checkMegaMillionsTicket_ok_inv (t : List Int) (mb : Int) (wn : WinningNumbers)
    (m : Int) (r : TicketResult)
    (h : checkMegaMillionsTicket t mb (some wn) m = .ok r) :
    r.whiteBallMatches = countMatchingNumbers t [wn.n1, wn.n2, wn.n3, wn.n4, wn.n5]
    ∧ r.hasPowerball = (mb == wn.mball)
    ∧ r.prizeDescription = (calculateMegaMillionsPrize r.whiteBallMatches r.hasPowerball "$500 Million").1
    ∧ r.basePrize = (calculateMegaMillionsPrize r.whiteBallMatches r.hasPowerball "$500 Million").2
    ∧ r.powerPlayMultiplier = m
    ∧ r.isWinner = (decide (r.basePrize > 0) || (r.whiteBallMatches == 5 && r.hasPowerball))
    ∧ r.totalPrize = (if m > 0 then (calculateMegaplierPrize r.basePrize m).2 else r.basePrize) := by
  unfold checkMegaMillionsTicket at h
  split at h
  · exact Except.noConfusion h
  · split at h
    · exact Except.noConfusion h
    · injection h with h
      subst h
      refine ⟨rfl, rfl, rfl, rfl, rfl, rfl, ?_⟩
      by_cases hm : m > 0 <;> simp [hm]

/-- C1: For every ticket check (both games), the winner flag of the returned
TicketResult is true if and only if the resolved base prize amount is greater
than 0 or the ticket matched all 5 primary numbers and the bonus number. -/
theorem ticket_winner_flag_iff (t t2 : List Int) (pb mb m m2 : Int)
    (wn wn2 : WinningNumbers) (j : String) (r r2 : TicketResult)
    (hA : checkPowerballTicket t pb (some wn) m j = .ok r)
    (hB : checkMegaMillionsTicket t2 mb (some wn2) m2 = .ok r2) :
    (r.isWinner = true ↔ 0 < r.basePrize ∨ (r.whiteBallMatches = 5 ∧ r.hasPowerball = true))
    ∧ (r2.isWinner = true ↔ 0 < r2.basePrize ∨ (r2.whiteBallMatches = 5 ∧ r2.hasPowerball = true)) := by
  obtain ⟨-, -, -, -, -, hw, -⟩ := checkPowerballTicket_ok_inv t pb wn m j r hA
  obtain ⟨-, -, -, -, -, hw2, -⟩ := checkMegaMillionsTicket_ok_inv t2 mb wn2 m2 r2 hB
  rw [hw, hw2]
  constructor <;> simp [Bool.or_eq_true, decide_eq_true_eq, Bool.and_eq_true, beq_iff_eq]

/-- Witness for C1: a jackpot Powerball ticket and a 4+1 Mega Millions ticket. -/
theorem ticket_winner_flag_iff_witness :
    (checkPowerballTicket [1, 2, 3, 4, 5] 7 (some ⟨"", 1, 2, 3, 4, 5, 7, 0, "", ""⟩) 0 "$J"
        = .ok ⟨true, 5, true, "$J", 0, 0, "", 0, 0⟩)
    ∧ (checkMegaMillionsTicket [1, 2, 3, 4, 60] 7 (some ⟨"", 1, 2, 3, 4, 5, 7, 0, "", ""⟩) 0
        = .ok ⟨true, 4, true, "$10,000", 1000000, 0, "", 0, 1000000⟩)
    ∧ (((⟨true, 5, true, "$J", 0, 0, "", 0, 0⟩ : TicketResult).isWinner = true
          ↔ 0 < (⟨true, 5, true, "$J", 0, 0, "", 0, 0⟩ : TicketResult).basePrize
            ∨ ((⟨true, 5, true, "$J", 0, 0, "", 0, 0⟩ : TicketResult).whiteBallMatches = 5
                ∧ (⟨true, 5, true, "$J", 0, 0, "", 0, 0⟩ : TicketResult).hasPowerball = true))
        ∧ ((⟨true, 4, true, "$10,000", 1000000, 0, "", 0, 1000000⟩ : TicketResult).isWinner = true
          ↔ 0 < (⟨true, 4, true, "$10,000", 1000000, 0, "", 0, 1000000⟩ : TicketResult).basePrize
            ∨ ((⟨true, 4, true, "$10,000", 1000000, 0, "", 0, 1000000⟩ : TicketResult).whiteBallMatches = 5
                ∧ (⟨true, 4, true, "$10,000", 1000000, 0, "", 0, 1000000⟩ : TicketResult).hasPowerball = true))) :=
  ⟨rfl, rfl,
    ticket_winner_flag_iff [1, 2, 3, 4, 5] [1, 2, 3, 4, 60] 7 7 0 0
      ⟨"", 1, 2, 3, 4, 5, 7, 0, "", ""⟩ ⟨"", 1, 2, 3, 4, 5, 7, 0, "", ""⟩ "$J"
      ⟨true, 5, true, "$J", 0, 0, "", 0, 0⟩
      ⟨true, 4, true, "$10,000", 1000000, 0, "", 0, 1000000⟩ rfl rfl⟩

/-- Counterexample for C2: at a base amount of exactly 15,000,000 cents the
requested multiplier 10 is applied as 10, not replaced by the fallback 2, so
the adjusted amounts for multiplier 10 and multiplier 2 differ there. -/
theorem powerPlay_cap_threshold_counterexample :
    (calculatePowerPlayPrize 15000000 10).2 = 150000000
    ∧ (calculatePowerPlayPrize 15000000 2).2 = 30000000
    ∧ (150000000 : Int) ≠ 30000000 := by
  refine ⟨by decide, by decide, by decide⟩

/-- C2 amended: the 10x fallback fires only for base amounts strictly above
15,000,000 cents; at the threshold itself, and below it, 10x applies. -/
theorem powerPlay_cap_strictly_above_threshold (base bhigh : Int)
    (hlow : base ≤ 15000000) (hhigh : 15000000 < bhigh) :
    (calculatePowerPlayPrize base 10).2 = base * 10
    ∧ (calculatePowerPlayPrize 15000000 10).2 = 15000000 * 10
    ∧ (calculatePowerPlayPrize 14999999 10).2 = 14999999 * 10
    ∧ (calculatePowerPlayPrize bhigh 10).2 = bhigh * 2 := by
  refine ⟨?_, by decide, by decide, ?_⟩
  · simp [calculatePowerPlayPrize, show ¬base > 15000000 by omega]
  · simp [calculatePowerPlayPrize, show bhigh > 15000000 by omega]

/-- Witness for C2 amended at base = 15,000,000 and bhigh = 15,000,001. -/
theorem powerPlay_cap_strictly_above_threshold_witness :
    ((15000000 : Int) ≤ 15000000)
    ∧ ((15000000 : Int) < 15000001)
    ∧ ((calculatePowerPlayPrize 15000000 10).2 = 15000000 * 10
        ∧ (calculatePowerPlayPrize 15000000 10).2 = 15000000 * 10
        ∧ (calculatePowerPlayPrize 14999999 10).2 = 14999999 * 10
        ∧ (calculatePowerPlayPrize 15000001 10).2 = 15000001 * 2) :=
  ⟨by decide, by decide,
    powerPlay_cap_strictly_above_threshold 15000000 15000001 (by decide) (by decide)⟩

/-- C3: the Megaplier adjustment is a straight product for every base amount
and every legal multiplier, with no threshold-based fallback. -/
theorem megaplier_pure_linear_scaling (base m : Int)
    (_hm : m = 2 ∨ m = 3 ∨ m = 4 ∨ m = 5 ∨ m = 10) :
    (calculateMegaplierPrize base m).2 = base * m := rfl

/-- Witness for C3: a $1,000,000 base with the largest multiplier 10 scales
uncapped (the exact situation Power Play would cap). -/
theorem megaplier_pure_linear_scaling_witness :
    ((10 : Int) = 2 ∨ (10 : Int) = 3 ∨ (10 : Int) = 4 ∨ (10 : Int) = 5 ∨ (10 : Int) = 10)
    ∧ (calculateMegaplierPrize 100000000 10).2 = 100000000 * 10 :=
  ⟨by decide, megaplier_pure_linear_scaling 100000000 10 (by decide)⟩

/-- Counterexample for C4: the key 0 matches without bonus also resolves to
the zero-amount no-prize tier in both paytables, so the set of no-prize keys
is not exactly the claimed pair (2 without bonus, 1 without bonus). -/
theorem paytable_zero_keys_counterexample :
    (calculatePowerballPrize 0 false "$X").2 = 0
    ∧ (calculatePowerballPrize 0 false "$X").1 = "$0"
    ∧ (calculateMegaMillionsPrize 0 false "$X").2 = 0
    ∧ (calculateMegaMillionsPrize 0 false "$X").1 = "$0"
    ∧ ¬ (((0 : Int), false) = ((2 : Int), false) ∨ ((0 : Int), false) = ((1 : Int), false)) := by
  refine ⟨by decide, by decide, by decide, by decide, by decide⟩

/-- C4 amended: every one of the 12 keys is a defined tier of both paytables,
and the base amount is 0 exactly for the three no-bonus keys 0, 1, 2 plus the
jackpot key (5 with bonus, whose 0 is the externally-valued placeholder). -/
theorem paytable_defined_and_zero_keys (j : String) (w : Int) (b : Bool)
    (h0 : 0 ≤ w) (h5 : w ≤ 5) :
    (((powerballPrizeTiers j).find? (fun t => t.1 == toString w ++ "+" ++ toString (boolToInt b))).isSome = true)
    ∧ (((megaMillionsPrizeTiers j).find? (fun t => t.1 == toString w ++ "+" ++ toString (boolToInt b))).isSome = true)
    ∧ ((calculatePowerballPrize w b j).2 = 0
        ↔ (b = false ∧ (w = 0 ∨ w = 1 ∨ w = 2)) ∨ (w = 5 ∧ b = true))
    ∧ ((calculateMegaMillionsPrize w b j).2 = 0
        ↔ (b = false ∧ (w = 0 ∨ w = 1 ∨ w = 2)) ∨ (w = 5 ∧ b = true)) := by
  interval_cases w <;> cases b <;>
    exact ⟨rfl, rfl, of_decide_eq_true rfl, of_decide_eq_true rfl⟩

/-- Witness for C4 amended at the 3-with-bonus key. -/
theorem paytable_defined_and_zero_keys_witness :
    ((0 : Int) ≤ 3) ∧ ((3 : Int) ≤ 5)
    ∧ ((((powerballPrizeTiers "$J").find? (fun t => t.1 == toString (3 : Int) ++ "+" ++ toString (boolToInt true))).isSome = true)
        ∧ (((megaMillionsPrizeTiers "$J").find? (fun t => t.1 == toString (3 : Int) ++ "+" ++ toString (boolToInt true))).isSome = true)
        ∧ ((calculatePowerballPrize 3 true "$J").2 = 0
            ↔ (true = false ∧ ((3 : Int) = 0 ∨ (3 : Int) = 1 ∨ (3 : Int) = 2)) ∨ ((3 : Int) = 5 ∧ true = true))
        ∧ ((calculateMegaMillionsPrize 3 true "$J").2 = 0
            ↔ (true = false ∧ ((3 : Int) = 0 ∨ (3 : Int) = 1 ∨ (3 : Int) = 2)) ∨ ((3 : Int) = 5 ∧ true = true))) :=
  ⟨by decide, by decide, paytable_defined_and_zero_keys "$J" 3 true (by decide) (by decide)⟩

/-- Counterexample for C5: for the same jackpot-winning draw, the Powerball
check reports the supplied per-draw display value, but the Mega Millions check
has no such input and always reports the hardcoded default, which differs from
the draw's display value here. -/
theorem megamillions_jackpot_display_counterexample :
    checkPowerballTicket [1, 2, 3, 4, 5] 7 (some ⟨"", 1, 2, 3, 4, 5, 7, 0, "", ""⟩) 0 "$100 Million"
      = .ok ⟨true, 5, true, "$100 Million", 0, 0, "", 0, 0⟩
    ∧ checkMegaMillionsTicket [1, 2, 3, 4, 5] 7 (some ⟨"", 1, 2, 3, 4, 5, 7, 0, "", ""⟩) 0
      = .ok ⟨true, 5, true, "$500 Million", 0, 0, "", 0, 0⟩
    ∧ ("$500 Million" : String) ≠ "$100 Million" :=
  ⟨rfl, rfl, by decide⟩

/-- C5 amended: on a jackpot ticket (5 matches plus bonus) the Powerball check
reports the jackpot display value it was given and base amount 0, while the
Mega Millions check reports the hardcoded default display value and base 0. -/
theorem jackpot_tier_description_and_base (t t2 : List Int) (pb mb m m2 : Int)
    (wn wn2 : WinningNumbers) (j : String) (r r2 : TicketResult)
    (hA : checkPowerballTicket t pb (some wn) m j = .ok r)
    (hA5 : r.whiteBallMatches = 5) (hAb : r.hasPowerball = true)
    (hB : checkMegaMillionsTicket t2 mb (some wn2) m2 = .ok r2)
    (hB5 : r2.whiteBallMatches = 5) (hBb : r2.hasPowerball = true) :
    (r.prizeDescription = j ∧ r.basePrize = 0)
    ∧ (r2.prizeDescription = "$500 Million" ∧ r2.basePrize = 0) := by
  obtain ⟨-, -, hdesc, hbase, -, -, -⟩ := checkPowerballTicket_ok_inv t pb wn m j r hA
  obtain ⟨-, -, hdesc2, hbase2, -, -, -⟩ := checkMegaMillionsTicket_ok_inv t2 mb wn2 m2 r2 hB
  rw [hA5, hAb] at hdesc hbase
  rw [hB5, hBb] at hdesc2 hbase2
  exact ⟨⟨hdesc, hbase⟩, ⟨hdesc2, hbase2⟩⟩

/-- Witness for C5 amended: jackpot tickets in both games, Powerball display
value supplied as a per-draw string. -/
theorem jackpot_tier_description_and_base_witness :
    (checkPowerballTicket [1, 2, 3, 4, 5] 7 (some ⟨"", 1, 2, 3, 4, 5, 7, 0, "", ""⟩) 0 "$900 Million"
        = .ok ⟨true, 5, true, "$900 Million", 0, 0, "", 0, 0⟩)
    ∧ ((⟨true, 5, true, "$900 Million", 0, 0, "", 0, 0⟩ : TicketResult).whiteBallMatches = 5)
    ∧ ((⟨true, 5, true, "$900 Million", 0, 0, "", 0, 0⟩ : TicketResult).hasPowerball = true)
    ∧ (checkMegaMillionsTicket [1, 2, 3, 4, 5] 7 (some ⟨"", 1, 2, 3, 4, 5, 7, 0, "", ""⟩) 0
        = .ok ⟨true, 5, true, "$500 Million", 0, 0, "", 0, 0⟩)
    ∧ ((⟨true, 5, true, "$500 Million", 0, 0, "", 0, 0⟩ : TicketResult).whiteBallMatches = 5)
    ∧ ((⟨true, 5, true, "$500 Million", 0, 0, "", 0, 0⟩ : TicketResult).hasPowerball = true)
    ∧ (((⟨true, 5, true, "$900 Million", 0, 0, "", 0, 0⟩ : TicketResult).prizeDescription = "$900 Million"
          ∧ (⟨true, 5, true, "$900 Million", 0, 0, "", 0, 0⟩ : TicketResult).basePrize = 0)
        ∧ ((⟨true, 5, true, "$500 Million", 0, 0, "", 0, 0⟩ : TicketResult).prizeDescription = "$500 Million"
          ∧ (⟨true, 5, true, "$500 Million", 0, 0, "", 0, 0⟩ : TicketResult).basePrize = 0)) :=
  ⟨rfl, rfl, rfl, rfl, rfl, rfl,
    jackpot_tier_description_and_base [1, 2, 3, 4, 5] [1, 2, 3, 4, 5] 7 7 0 0
      ⟨"", 1, 2, 3, 4, 5, 7, 0, "", ""⟩ ⟨"", 1, 2, 3, 4, 5, 7, 0, "", ""⟩ "$900 Million"
      ⟨true, 5, true, "$900 Million", 0, 0, "", 0, 0⟩
      ⟨true, 5, true, "$500 Million", 0, 0, "", 0, 0⟩ rfl rfl rfl rfl rfl rfl⟩

/-- Counterexample for C7: a ticket with a duplicated primary number passes
validation in both games and is scored with the duplicate counted once (4
matches here), instead of being rejected. -/
theorem duplicate_ticket_accepted_counterexample :
    ¬ ([10, 10, 20, 30, 40] : List Int).Nodup
    ∧ checkPowerballTicket [10, 10, 20, 30, 40] 5 (some ⟨"", 10, 20, 30, 40, 50, 5, 0, "", ""⟩) 0 "$1"
        = .ok ⟨true, 4, true, "$50,000", 5000000, 0, "", 0, 5000000⟩
    ∧ checkMegaMillionsTicket [10, 10, 20, 30, 40] 5 (some ⟨"", 10, 20, 30, 40, 50, 5, 0, "", ""⟩) 0
        = .ok ⟨true, 4, true, "$10,000", 1000000, 0, "", 0, 1000000⟩ :=
  ⟨by decide, rfl, rfl⟩

/-- C7 amended: a ticket check succeeds exactly when the ticket has 5 numbers
and the bonus number is in the game's range; duplicated primary numbers are
not rejected (the set semantics of the match count merely ignores them). -/
theorem ticket_validation_characterization (t t2 : List Int) (pb mb m m2 : Int)
    (wn wn2 : WinningNumbers) (j : String) :
    ((∃ r, checkPowerballTicket t pb (some wn) m j = .ok r)
        ↔ (t.length = 5 ∧ 1 ≤ pb ∧ pb ≤ 26))
    ∧ ((∃ r, checkMegaMillionsTicket t2 mb (some wn2) m2 = .ok r)
        ↔ (t2.length = 5 ∧ 1 ≤ mb ∧ mb ≤ 25)) := by
  constructor
  · constructor
    · rintro ⟨r, hr⟩
      unfold checkPowerballTicket at hr
      split at hr
      · exact Except.noConfusion hr
      · split at hr
        · exact Except.noConfusion hr
        · rename_i h1 h2
          exact ⟨by omega, by omega, by omega⟩
    · rintro ⟨h1, h2, h3⟩
      exact ⟨_, by
        unfold checkPowerballTicket
        rw [if_neg (by omega), if_neg (by omega)]⟩
  · constructor
    · rintro ⟨r, hr⟩
      unfold checkMegaMillionsTicket at hr
      split at hr
      · exact Except.noConfusion hr
      · split at hr
        · exact Except.noConfusion hr
        · rename_i h1 h2
          exact ⟨by omega, by omega, by omega⟩
    · rintro ⟨h1, h2, h3⟩
      exact ⟨_, by
        unfold checkMegaMillionsTicket
        rw [if_neg (by omega), if_neg (by omega)]⟩

/-- C10: the multiplier is not validated against the legal set: any positive
multiplier other than exactly 10 scales any base amount uncapped, both in the
multiplier application and in the total of a checked ticket, and the cap
substitution is conditioned on the multiplier being exactly 10. -/
theorem multiplier_unvalidated_uncapped (base m : Int) (t : List Int) (pb : Int)
    (wn : WinningNumbers) (j : String) (r : TicketResult)
    (hm0 : 0 < m) (hm10 : m ≠ 10)
    (h : checkPowerballTicket t pb (some wn) m j = .ok r) :
    (calculatePowerPlayPrize base m).2 = base * m
    ∧ (calculatePowerPlayPrize base 10).2 = (if base > 15000000 then base * 2 else base * 10)
    ∧ r.totalPrize = r.basePrize * m := by
  have h1 : ∀ b : Int, (calculatePowerPlayPrize b m).2 = b * m := by
    intro b
    simp [calculatePowerPlayPrize, hm10]
  refine ⟨h1 base, ?_, ?_⟩
  · by_cases hb : base > 15000000 <;> simp [calculatePowerPlayPrize, hb]
  · obtain ⟨-, -, -, -, -, -, htot⟩ := checkPowerballTicket_ok_inv t pb wn m j r h
    rw [htot, if_pos hm0, h1]

/-- Witness for C10: requested multiplier 11 scales a $1,000,000 base to
$11,000,000 with no cap, in the application and in the checked ticket. -/
theorem multiplier_unvalidated_uncapped_witness :
    ((0 : Int) < 11) ∧ ((11 : Int) ≠ 10)
    ∧ (checkPowerballTicket [10, 20, 30, 40, 50] 24 (some ⟨"", 10, 20, 30, 40, 50, 25, 0, "", ""⟩) 11 "$J"
        = .ok ⟨true, 5, false, "$1,000,000", 100000000, 11, "$11 Million", 1100000000, 1100000000⟩)
    ∧ ((calculatePowerPlayPrize 100000000 11).2 = 100000000 * 11
        ∧ (calculatePowerPlayPrize 100000000 10).2
            = (if (100000000 : Int) > 15000000 then 100000000 * 2 else 100000000 * 10)
        ∧ (⟨true, 5, false, "$1,000,000", 100000000, 11, "$11 Million", 1100000000, 1100000000⟩
            : TicketResult).totalPrize
          = (⟨true, 5, false, "$1,000,000", 100000000, 11, "$11 Million", 1100000000, 1100000000⟩
            : TicketResult).basePrize * 11) :=
  ⟨by decide, by decide, rfl,
    multiplier_unvalidated_uncapped 100000000 11 [10, 20, 30, 40, 50] 24
      ⟨"", 10, 20, 30, 40, 50, 25, 0, "", ""⟩ "$J"
      ⟨true, 5, false, "$1,000,000", 100000000, 11, "$11 Million", 1100000000, 1100000000⟩
      (by decide) (by decide) rfl⟩

/-- C6: for a 5-number ticket and a drawing of 5 distinct numbers, the match
count is the cardinality of the set intersection of the two number sets, lies
in [0, 5], and is invariant under reordering of either list. -/
theorem countMatching_intersection_card (ticket winning : List Int)
    (_hticket : ticket.length = 5) (hwin : winning.length = 5) (hnd : winning.Nodup) :
    countMatchingNumbers ticket winning = ((ticket.toFinset ∩ winning.toFinset).card : Int)
    ∧ 0 ≤ countMatchingNumbers ticket winning
    ∧ countMatchingNumbers ticket winning ≤ 5
    ∧ (∀ ticket2 winning2 : List Int, ticket2.Perm ticket → winning2.Perm winning →
        countMatchingNumbers ticket2 winning2 = countMatchingNumbers ticket winning) := by
  have hkey : (winning.filter (fun n => ticket.contains n)).length
      = (ticket.toFinset ∩ winning.toFinset).card := by
    rw [← List.toFinset_card_of_nodup (hnd.filter _), List.toFinset_filter]
    rw [show (winning.toFinset.filter (fun n => ticket.contains n))
        = winning.toFinset.filter (fun n => n ∈ ticket.toFinset) from
      Finset.filter_congr (by intro x _; simp)]
    rw [Finset.filter_mem_eq_inter, Finset.inter_comm]
  refine ⟨?_, ?_, ?_, ?_⟩
  · unfold countMatchingNumbers
    exact_mod_cast hkey
  · exact Int.ofNat_nonneg _
  · unfold countMatchingNumbers
    have := List.length_filter_le (fun n => ticket.contains n) winning
    omega
  · intro ticket2 winning2 ht2 hw2
    unfold countMatchingNumbers
    have hfc : winning2.filter (fun n => ticket2.contains n)
        = winning2.filter (fun n => ticket.contains n) := by
      refine List.filter_congr ?_
      intro a _
      have hmem : a ∈ ticket2 ↔ a ∈ ticket := ht2.mem_iff
      simp [hmem]
    rw [hfc, (hw2.filter (fun n => ticket.contains n)).length_eq]

/-- Witness for C6 at a concrete ticket and drawing sharing three numbers. -/
theorem countMatching_intersection_card_witness :
    (([5, 4, 3, 2, 1] : List Int).length = 5)
    ∧ (([1, 2, 3, 10, 11] : List Int).length = 5)
    ∧ ([1, 2, 3, 10, 11] : List Int).Nodup
    ∧ (countMatchingNumbers [5, 4, 3, 2, 1] [1, 2, 3, 10, 11]
          = ((([5, 4, 3, 2, 1] : List Int).toFinset ∩ ([1, 2, 3, 10, 11] : List Int).toFinset).card : Int)
        ∧ 0 ≤ countMatchingNumbers [5, 4, 3, 2, 1] [1, 2, 3, 10, 11]
        ∧ countMatchingNumbers [5, 4, 3, 2, 1] [1, 2, 3, 10, 11] ≤ 5
        ∧ (∀ ticket2 winning2 : List Int,
            ticket2.Perm [5, 4, 3, 2, 1] → winning2.Perm [1, 2, 3, 10, 11] →
            countMatchingNumbers ticket2 winning2
              = countMatchingNumbers [5, 4, 3, 2, 1] [1, 2, 3, 10, 11])) :=
  ⟨by decide, by decide, by decide,
    countMatching_intersection_card [5, 4, 3, 2, 1] [1, 2, 3, 10, 11]
      (by decide) (by decide) (by decide)⟩

/-- `DrawingItem` struct from `model.go`. -/
structure DrawingItem where
  playDate : String
  n1 : Int
  n2 : Int
  n3 : Int
  n4 : Int
  n5 : Int
  mball : Int
  megaplier : Int
  updatedBy : String
  updatedTime : String
  playDateTicks : Int
deriving Repr, DecidableEq

/-- `DrawingData` struct from `model.go` (the inner payload of the first,
paging API call). -/
structure DrawingData where
  drawingData : List DrawingItem
  totalResults : Int
deriving Repr, DecidableEq

/-- `DetailedDrawData` struct from `model.go` (the inner payload of the
second, detail API call).  Its `Jackpot` and `PrizeTiers` fields are
dynamically typed (`interface\x7b\x7d`) in Go and are consumed only by
`parseMegaMillionsPrizeData`, which this development treats as an opaque
collaborator (see `getMegaMillionsPrizeAmounts`); they are not modelled. -/
structure DetailedDrawData where
  drawing : DrawingItem
deriving Repr, DecidableEq

/-- `LotteryResponse` struct from `model.go`. -/
structure LotteryResponse where
  success : Bool
  date : String
  lotteryType : String
  winningNumbers : Option WinningNumbers
  error : String
deriving Repr, DecidableEq

/-- `PrizeTier` struct from `model.go`.  The Go `map[string]int` of Megaplier
prizes is modelled as an association list.  Defaults are the Go zero values,
so that record literals omitting fields mirror the Go composite literals. -/
structure PrizeTier where
  Match : String := ""
  powerballWinners : Int := 0
  powerballPrize : String := ""
  powerPlayWinners : Int := 0
  powerPlayPrize : String := ""
  megaMillionsWinners : Int := 0
  megaMillionsPrize : String := ""
  megaplierWinners : Int := 0
  megaplierPrize : List (String × Int) := []
deriving Repr, DecidableEq

/-- `PrizeInfo` struct from `model.go`. -/
structure PrizeInfo where
  playDate : String
  estimatedJackpot : String
  cashValue : String
  prizeTiers : List PrizeTier
  updatedBy : String
  updatedTime : String
deriving Repr, DecidableEq

/-- `PrizeResponse` struct from `model.go`. -/
structure PrizeResponse where
  success : Bool
  date : String
  lotteryType : String
  prizeInfo : Option PrizeInfo
  error : String
deriving Repr, DecidableEq

/-- `getMegaMillionsWinningNumbers` from `lottery.go`.  The two upstream HTTP
calls (`getDrawingPagingData`, keyed by the formatted date, and
`getDrawDataByTickWithMatrix`, keyed by the play-date ticks of the first
returned draw) are transport, excluded from the core; their outcomes are the
explicit inputs `pagingResult` and `detailResult`.  Everything from the call
sites on is translated from the source: paging failure and the empty draw
list fail the operation, a detail failure falls back to the inline copy of
the paging item and still succeeds, and detail success uses the detail data. -/
def getMegaMillionsWinningNumbers (date : String)
    (pagingResult : Except String DrawingData)
    (detailResult : Int → Except String DetailedDrawData) : LotteryResponse :=
  match pagingResult with
  | .error e =>
    { success := false, date := date, lotteryType := "megamillions",
      winningNumbers := none, error := "Failed to get drawing data: " ++ e }
  | .ok drawingData =>
    match drawingData.drawingData with
    | [] =>
      { success := false, date := date, lotteryType := "megamillions",
        winningNumbers := none,
        error := "No drawing data found for the specified date" }
    | drawingItem :: _ =>
      match detailResult drawingItem.playDateTicks with
      | .error _ =>
        { success := true, date := date, lotteryType := "megamillions",
          winningNumbers := some
            { playDate := drawingItem.playDate, n1 := drawingItem.n1,
              n2 := drawingItem.n2, n3 := drawingItem.n3, n4 := drawingItem.n4,
              n5 := drawingItem.n5, mball := drawingItem.mball,
              megaplier := drawingItem.megaplier,
              updatedBy := drawingItem.updatedBy,
              updatedTime := drawingItem.updatedTime },
          error := "" }
      | .ok detailedData =>
        { success := true, date := date, lotteryType := "megamillions",
          winningNumbers := some
            { playDate := detailedData.drawing.playDate,
              n1 := detailedData.drawing.n1, n2 := detailedData.drawing.n2,
              n3 := detailedData.drawing.n3, n4 := detailedData.drawing.n4,
              n5 := detailedData.drawing.n5, mball := detailedData.drawing.mball,
              megaplier := detailedData.drawing.megaplier,
              updatedBy := detailedData.drawing.updatedBy,
              updatedTime := detailedData.drawing.updatedTime },
          error := "" }

/-- `getMegaMillionsPrizeAmounts` from `lottery.go`.  Same abstraction of the
two upstream calls as `getMegaMillionsWinningNumbers`; in addition
`parseMegaMillionsPrizeData` (which reads the dynamically typed jackpot
payload and the runtime clock) is passed in as the opaque collaborator
`parsePrizeData`.  Unlike the winning-numbers path, a detail-call failure
here fails the whole operation. -/
def getMegaMillionsPrizeAmounts (date : String)
    (pagingResult : Except String DrawingData)
    (detailResult : Int → Except String DetailedDrawData)
    (parsePrizeData : DetailedDrawData → String → Except String PrizeInfo) :
    PrizeResponse :=
  match pagingResult with
  | .error e =>
    { success := false, date := date, lotteryType := "megamillions",
      prizeInfo := none, error := "Failed to get drawing data: " ++ e }
  | .ok drawingData =>
    match drawingData.drawingData with
    | [] =>
      { success := false, date := date, lotteryType := "megamillions",
        prizeInfo := none,
        error := "No drawing data found for the specified date" }
    | drawingItem :: _ =>
      match detailResult drawingItem.playDateTicks with
      | .error e =>
        { success := false, date := date, lotteryType := "megamillions",
          prizeInfo := none,
          error := "Failed to get detailed draw data: " ++ e }
      | .ok detailedData =>
        match parsePrizeData detailedData drawingItem.playDate with
        | .error e =>
          { success := false, date := date, lotteryType := "megamillions",
            prizeInfo := none, error := "Failed to parse prize data: " ++ e }
        | .ok prizeInfo =>
          { success := true, date := date, lotteryType := "megamillions",
            prizeInfo := some prizeInfo, error := "" }

/-- Counterexample for C8: with a successful paging call holding one draw and
a failing detail call, the winning-numbers operation succeeds, but the
prize-amounts operation returns an overall failure — the secondary failure is
propagated there, contrary to the claim that no Game A operation does so. -/
theorem prizeAmounts_detail_failure_counterexample :
    (getMegaMillionsPrizeAmounts "01/02/2025"
        (.ok ⟨[⟨"2025-01-02", 1, 2, 3, 4, 5, 7, 3, "API", "t", 638000⟩], 1⟩)
        (fun _ => .error "boom")
        (fun _ _ => .error "unused")).success = false
    ∧ (getMegaMillionsPrizeAmounts "01/02/2025"
        (.ok ⟨[⟨"2025-01-02", 1, 2, 3, 4, 5, 7, 3, "API", "t", 638000⟩], 1⟩)
        (fun _ => .error "boom")
        (fun _ _ => .error "unused")).error = "Failed to get detailed draw data: boom"
    ∧ (getMegaMillionsWinningNumbers "01/02/2025"
        (.ok ⟨[⟨"2025-01-02", 1, 2, 3, 4, 5, 7, 3, "API", "t", 638000⟩], 1⟩)
        (fun _ => .error "boom")).success = true :=
  ⟨rfl, rfl, rfl⟩

/-- C8 amended: when the paging call succeeds with at least one draw and the
detail call fails, the winning-numbers fetch still succeeds, built from the
inline copy of the first paging item; the prize-amounts lookup, in contrast,
propagates the detail failure as an overall failure. -/
theorem megamillions_partial_degradation (date e : String) (item : DrawingItem)
    (rest : List DrawingItem) (total : Int)
    (detailResult : Int → Except String DetailedDrawData)
    (parsePrizeData : DetailedDrawData → String → Except String PrizeInfo)
    (hdetail : detailResult item.playDateTicks = .error e) :
    (getMegaMillionsWinningNumbers date (.ok ⟨item :: rest, total⟩) detailResult).success = true
    ∧ (getMegaMillionsWinningNumbers date (.ok ⟨item :: rest, total⟩) detailResult).winningNumbers
        = some ⟨item.playDate, item.n1, item.n2, item.n3, item.n4, item.n5,
            item.mball, item.megaplier, item.updatedBy, item.updatedTime⟩
    ∧ (getMegaMillionsPrizeAmounts date (.ok ⟨item :: rest, total⟩) detailResult
        parsePrizeData).success = false
    ∧ (getMegaMillionsPrizeAmounts date (.ok ⟨item :: rest, total⟩) detailResult
        parsePrizeData).error = "Failed to get detailed draw data: " ++ e := by
  simp [getMegaMillionsWinningNumbers, getMegaMillionsPrizeAmounts, hdetail]

/-- Witness for C8 amended at a concrete paging item and failing detail call. -/
theorem megamillions_partial_degradation_witness :
    ((fun _ => .error "down" : Int → Except String DetailedDrawData) 638000 = .error "down")
    ∧ ((getMegaMillionsWinningNumbers "01/02/2025"
          (.ok ⟨[⟨"2025-01-02", 1, 2, 3, 4, 5, 7, 3, "API", "t", 638000⟩], 1⟩)
          (fun _ => .error "down")).success = true
        ∧ (getMegaMillionsWinningNumbers "01/02/2025"
          (.ok ⟨[⟨"2025-01-02", 1, 2, 3, 4, 5, 7, 3, "API", "t", 638000⟩], 1⟩)
          (fun _ => .error "down")).winningNumbers
            = some ⟨"2025-01-02", 1, 2, 3, 4, 5, 7, 3, "API", "t"⟩
        ∧ (getMegaMillionsPrizeAmounts "01/02/2025"
          (.ok ⟨[⟨"2025-01-02", 1, 2, 3, 4, 5, 7, 3, "API", "t", 638000⟩], 1⟩)
          (fun _ => .error "down") (fun _ _ => .error "unused")).success = false
        ∧ (getMegaMillionsPrizeAmounts "01/02/2025"
          (.ok ⟨[⟨"2025-01-02", 1, 2, 3, 4, 5, 7, 3, "API", "t", 638000⟩], 1⟩)
          (fun _ => .error "down") (fun _ _ => .error "unused")).error
            = "Failed to get detailed draw data: " ++ "down") :=
  ⟨rfl,
    megamillions_partial_degradation "01/02/2025" "down"
      ⟨"2025-01-02", 1, 2, 3, 4, 5, 7, 3, "API", "t", 638000⟩ [] 1
      (fun _ => .error "down") (fun _ _ => .error "unused") rfl⟩

/-- The cell-grouping step of `extractPowerballPrizeTiers` (`lottery.go`).
The regex scan of the HTML (a library call over the raw document) yields the
list of (data-label, cell text) capture pairs, which is the input here; the
Go code trims both captures and groups the values by label in encounter
order, then reads the groups only at four fixed keys, so the group of a key
is the ordered list of trimmed values of the cells carrying that label. -/
def labelGroup (cellMatches : List (String × String)) (label : String) : List String :=
  (cellMatches.filter (fun m => m.1.trim == label)).map (fun m => m.2.trim)

/-- The main (data-label driven) extraction phase of
`extractPowerballPrizeTiers` (`lottery.go`): the value of its `prizeTiers`
variable just before the empty-check.  A key is present in the Go map exactly
when its group is nonempty.  Winner counts parse with `strconv.Atoi`,
modelled by `String.toInt?`, defaulting to 0 on failure. -/
def extractedPowerballPrizeTiers (cellMatches : List (String × String)) : List PrizeTier :=
  let powerballWinners := labelGroup cellMatches "Powerball Winners"
  let powerballPrizes := labelGroup cellMatches "Powerball Prize"
  let powerPlayWinners := labelGroup cellMatches "Power Play Winners"
  let powerPlayPrizes := labelGroup cellMatches "Power Play Prize"
  if powerballWinners ≠ [] ∧ powerballPrizes ≠ [] ∧ powerPlayWinners ≠ [] ∧ powerPlayPrizes ≠ [] then
    let matchDescriptions := (List.range (min powerballPrizes.length 9)).map (fun i =>
      let prize := (powerballPrizes.getD i "").trim
      if prize == "Grand Prize" then "5+1 (Jackpot)"
      else if prize == "$1,000,000" then "5+0"
      else if prize == "$50,000" then "4+1"
      else if prize == "$100" then (if i == 3 then "4+0" else "3+1")
      else if prize == "$7" then (if i == 5 then "3+0" else "2+1")
      else if prize == "$4" then (if i == 7 then "1+1" else "0+1")
      else "Match " ++ toString (i + 1))
    let maxEntries := min 9 (min powerballWinners.length (min powerballPrizes.length
      (min powerPlayWinners.length (min powerPlayPrizes.length matchDescriptions.length))))
    (List.range maxEntries).map (fun i =>
      let powerballWinnersCount :=
        if powerballWinners.getD i "" ≠ "" then ((powerballWinners.getD i "").toInt?).getD 0 else 0
      let powerPlayWinnersCount :=
        if powerPlayWinners.getD i "" ≠ "" then ((powerPlayWinners.getD i "").toInt?).getD 0 else 0
      let prize := (powerballPrizes.getD i "").trim
      let ppPrize := (powerPlayPrizes.getD i "").trim
      { Match := matchDescriptions.getD i "",
        powerballWinners := powerballWinnersCount,
        powerballPrize := prize,
        powerPlayWinners := powerPlayWinnersCount,
        powerPlayPrize := ppPrize })
  else []

/-- The last-resort paytable literal of `extractPowerballPrizeTiers`
(`lottery.go`), synthesized when no rows were extracted. -/
def canonicalPowerballPrizeTiers : List PrizeTier :=
  [{ Match := "5+1 (Jackpot)", powerballWinners := 0, powerballPrize := "Jackpot",
     powerPlayWinners := 0,
     powerPlayPrize := "2x: Jackpot, 3x: Jackpot, 4x: Jackpot, 5x: Jackpot, 10x: Jackpot" },
   { Match := "5+0", powerballWinners := 0, powerballPrize := "$1,000,000",
     powerPlayWinners := 0,
     powerPlayPrize := "2x: $2,000,000, 3x: $3,000,000, 4x: $4,000,000, 5x: $5,000,000, 10x: $10,000,000" },
   { Match := "4+1", powerballWinners := 0, powerballPrize := "$50,000",
     powerPlayWinners := 0,
     powerPlayPrize := "2x: $100,000, 3x: $150,000, 4x: $200,000, 5x: $250,000, 10x: $500,000" },
   { Match := "4+0", powerballWinners := 0, powerballPrize := "$100",
     powerPlayWinners := 0,
     powerPlayPrize := "2x: $200, 3x: $300, 4x: $400, 5x: $500, 10x: $1,000" },
   { Match := "3+1", powerballWinners := 0, powerballPrize := "$100",
     powerPlayWinners := 0,
     powerPlayPrize := "2x: $200, 3x: $300, 4x: $400, 5x: $500, 10x: $1,000" },
   { Match := "3+0", powerballWinners := 0, powerballPrize := "$7",
     powerPlayWinners := 0,
     powerPlayPrize := "2x: $14, 3x: $21, 4x: $28, 5x: $35, 10x: $70" },
   { Match := "2+1", powerballWinners := 0, powerballPrize := "$7",
     powerPlayWinners := 0,
     powerPlayPrize := "2x: $14, 3x: $21, 4x: $28, 5x: $35, 10x: $70" },
   { Match := "1+1", powerballWinners := 0, powerballPrize := "$4",
     powerPlayWinners := 0,
     powerPlayPrize := "2x: $8, 3x: $12, 4x: $16, 5x: $20, 10x: $40" },
   { Match := "0+1", powerballWinners := 0, powerballPrize := "$4",
     powerPlayWinners := 0,
     powerPlayPrize := "2x: $8, 3x: $12, 4x: $16, 5x: $20, 10x: $40" }]

/-- `extractPowerballPrizeTiers` from `lottery.go`: the main extraction, then
the canonical 9-row fallback if it produced nothing; the Go error result is
always nil, so every input yields a success value. -/
def extractPowerballPrizeTiers (cellMatches : List (String × String)) :
    Except String (List PrizeTier) :=
  let prizeTiers := extractedPowerballPrizeTiers cellMatches
  let prizeTiers := if prizeTiers = [] then canonicalPowerballPrizeTiers else prizeTiers
  .ok prizeTiers

/-- C9: whenever the extraction phase yields no prize-table rows, the
extractor still succeeds and returns the synthesized canonical 9-row
paytable, covering the nine tiers in order with all winner counts 0. -/
theorem extract_prize_tiers_fallback (cellMatches : List (String × String))
    (h : extractedPowerballPrizeTiers cellMatches = []) :
    extractPowerballPrizeTiers cellMatches = .ok canonicalPowerballPrizeTiers
    ∧ canonicalPowerballPrizeTiers.length = 9
    ∧ canonicalPowerballPrizeTiers.map (fun tier => tier.Match)
        = ["5+1 (Jackpot)", "5+0", "4+1", "4+0", "3+1", "3+0", "2+1", "1+1", "0+1"]
    ∧ ∀ tier ∈ canonicalPowerballPrizeTiers,
        tier.powerballWinners = 0 ∧ tier.powerPlayWinners = 0 := by
  refine ⟨?_, by decide, by decide, by decide⟩
  simp [extractPowerballPrizeTiers, h]

/-- Witness for C9: the empty capture list extracts nothing, so the canonical
paytable is returned. -/
theorem extract_prize_tiers_fallback_witness :
    extractedPowerballPrizeTiers [] = []
    ∧ (extractPowerballPrizeTiers [] = .ok canonicalPowerballPrizeTiers
        ∧ canonicalPowerballPrizeTiers.length = 9
        ∧ canonicalPowerballPrizeTiers.map (fun tier => tier.Match)
            = ["5+1 (Jackpot)", "5+0", "4+1", "4+0", "3+1", "3+0", "2+1", "1+1", "0+1"]
        ∧ ∀ tier ∈ canonicalPowerballPrizeTiers,
            tier.powerballWinners = 0 ∧ tier.powerPlayWinners = 0) :=
  ⟨rfl, extract_prize_tiers_fallback [] rfl⟩
